import Mathlib

/-!
# ANBD event/response pipeline — a shallow embedding

Definitions translated from the repository's Python sources:
* `routes/rca_type1.py` — Stage-1 threshold classification
* `routes/rca_type2.py` — Stage-2 simulated device health checks
* `routes/trigger_response.py` — the Response Executor (both stages)
* `db/models/response.py` — the persisted Response record and its serialization
* `utils/core.py` — `StateManager`
* `app.py` — `ANBDLogGenerator` (lifecycle, batch generation, feature fabrication)
* `utils/data_generator.py` — the CSV row generator
* `config.py` — threshold tables, playbook tables, feature-name lists

Python dicts of feature values are embedded as association lists
`List (String × ℚ)`; Python floats and ints both become `ℚ` (every value the
program manipulates is a finite decimal, so `ℚ` embeds them exactly).
Randomness (`random.uniform`, `random.randint`, `random.choice`) is embedded
by passing the drawn value as an explicit argument, and `time.sleep`-based
duration measurement by passing the measured duration.  The SQLAlchemy
session is embedded as an explicit list of records: `query(...).first()`
becomes `List.find?`, committing a mutation of the found ORM object becomes
replacing the first matching list element.
-/

namespace ANBD

/-- A Python dict of named numeric features (`re_features` / `features`). -/
abbrev FeatureMap := List (String × ℚ)

/-- `features.get(key, 0)`: dict lookup with default `0` for a missing key
(`rca_type1.py`, every `features.get(..., 0)` call). -/
def featGet (f : FeatureMap) (k : String) : ℚ :=
  match f.lookup k with
  | some v => v
  | none => 0

/-- The threshold table `Config.RCA_TYPE1_THRESHOLDS` (`config.py`): one
numeric entry per comparison performed by `classify_anomaly_type`. -/
structure Thresholds where
  flow_bytes_per_sec : ℚ
  flow_packets_per_sec : ℚ
  total_fwd_packets : ℚ
  total_bwd_packets : ℚ
  fwd_header_length : ℚ
  bwd_header_length : ℚ
  max_packet_length : ℚ
  packet_length_mean : ℚ
deriving DecidableEq, Repr

/-- `Config.RCA_TYPE1_THRESHOLDS` also holds `unusual_flow_duration`. -/
structure ThresholdsFull extends Thresholds where
  flow_duration : ℚ
deriving DecidableEq, Repr

/-- The five Stage-1 categories `classify_anomaly_type` can return
(`rca_type1.py` lines 49–77). -/
inductive AnomalyType1 where
  | bandwidth_saturation
  | throughput_anomaly
  | header_length
  | packet_size
  | flow_duration
deriving DecidableEq, Repr

/-- `classify_anomaly_type(features, thresholds)` (`rca_type1.py` 49–77):
five threshold checks in source order, returning at the first that fires,
`None` when none does.  Each comparison is `features.get(name, 0) > bound`. -/
def classify_anomaly_type (features : FeatureMap) (t : ThresholdsFull) :
    Option AnomalyType1 :=
  if featGet features "Flow Bytes/s" > t.flow_bytes_per_sec ∨
      featGet features "Flow Packets/s" > t.flow_packets_per_sec then
    some .bandwidth_saturation
  else if featGet features "Total Length of Fwd Packets" > t.total_fwd_packets ∨
      featGet features "Total Length of Bwd Packets" > t.total_bwd_packets then
    some .throughput_anomaly
  else if featGet features "Fwd Header Length" > t.fwd_header_length ∨
      featGet features "Bwd Header Length" > t.bwd_header_length then
    some .header_length
  else if featGet features "Max Packet Length" > t.max_packet_length ∨
      featGet features "Packet Length Mean" > t.packet_length_mean then
    some .packet_size
  else if featGet features "Flow Duration" > t.flow_duration then
    some .flow_duration
  else
    none

/-- The bandwidth-saturation predicate (first check of
`classify_anomaly_type`). -/
def bandwidthSaturated (f : FeatureMap) (t : ThresholdsFull) : Prop :=
  featGet f "Flow Bytes/s" > t.flow_bytes_per_sec ∨
    featGet f "Flow Packets/s" > t.flow_packets_per_sec

/-- The throughput-anomaly predicate (second check). -/
def throughputAnomalous (f : FeatureMap) (t : ThresholdsFull) : Prop :=
  featGet f "Total Length of Fwd Packets" > t.total_fwd_packets ∨
    featGet f "Total Length of Bwd Packets" > t.total_bwd_packets

/-- The unusual-header-length predicate (third check). -/
def headerLengthUnusual (f : FeatureMap) (t : ThresholdsFull) : Prop :=
  featGet f "Fwd Header Length" > t.fwd_header_length ∨
    featGet f "Bwd Header Length" > t.bwd_header_length

/-- The unusual-packet-size predicate (fourth check). -/
def packetSizeUnusual (f : FeatureMap) (t : ThresholdsFull) : Prop :=
  featGet f "Max Packet Length" > t.max_packet_length ∨
    featGet f "Packet Length Mean" > t.packet_length_mean

/-- The unusual-flow-duration predicate (fifth check). -/
def flowDurationUnusual (f : FeatureMap) (t : ThresholdsFull) : Prop :=
  featGet f "Flow Duration" > t.flow_duration

/-- `Config.RCA_TYPE1_THRESHOLDS` of the base `Config` class (`config.py`
lines 74–94). -/
def RCA_TYPE1_THRESHOLDS : ThresholdsFull :=
  { flow_bytes_per_sec := 1000000
    flow_packets_per_sec := 1000
    total_fwd_packets := 10000
    total_bwd_packets := 10000
    fwd_header_length := 100
    bwd_header_length := 100
    max_packet_length := 1500
    packet_length_mean := 1000
    flow_duration := 300000000 }

/-! ## Response Executor (`routes/trigger_response.py`, `config.py`) -/

/-- `Config.RESPONSE_PLAYBOOKS['type1']` (`config.py` lines 196–203):
category → playbook path. -/
def RESPONSE_PLAYBOOKS_type1 : List (String × String) :=
  [("bandwidth_saturation", "response/playbooks/type1/bandwidth_saturation_fix.yml"),
   ("throughput_anomaly", "response/playbooks/type1/throughput_anomaly_fix.yml"),
   ("header_length", "response/playbooks/type1/header_length_fix.yml"),
   ("packet_size", "response/playbooks/type1/packet_size_fix.yml"),
   ("flow_duration", "response/playbooks/type1/flow_duration_fix.yml")]

/-- `Config.RESPONSE_PLAYBOOKS['type2']` (`config.py` lines 204–210).  Note
the keys: `latency`, `error_rate`, `connectivity` — not the category names
Stage 2 emits. -/
def RESPONSE_PLAYBOOKS_type2 : List (String × String) :=
  [("latency", "response/playbooks/type2/latency_fix.yml"),
   ("error_rate", "response/playbooks/type2/error_rate_fix.yml"),
   ("flapping_links", "response/playbooks/type2/flapping_links_fix.yml"),
   ("connectivity", "response/playbooks/type2/connectivity_fix.yml"),
   ("packet_loss", "response/playbooks/type2/packet_loss_fix.yml")]

/-- One entry of the `actions_map` dicts in `trigger_response.py`:
`{'type': ..., 'actions': [...]}`. -/
structure ResponseActions where
  rtype : String
  actions : List String
deriving DecidableEq, Repr

/-- `get_type1_response_actions` (`trigger_response.py` 212–240). -/
def get_type1_response_actions (anomaly_type : String) : ResponseActions :=
  match anomaly_type with
  | "bandwidth_saturation" =>
      ⟨"bandwidth_optimization",
       ["Applied traffic shaping", "Enabled QoS policies", "Increased buffer sizes"]⟩
  | "throughput_anomaly" =>
      ⟨"throughput_optimization",
       ["Optimized TCP window size", "Adjusted flow control", "Updated routing metrics"]⟩
  | "header_length" =>
      ⟨"header_normalization",
       ["Applied header compression", "Filtered malformed packets", "Updated protocol settings"]⟩
  | "packet_size" =>
      ⟨"packet_optimization",
       ["Configured MTU discovery", "Applied fragmentation rules", "Optimized packet sizes"]⟩
  | "flow_duration" =>
      ⟨"flow_management",
       ["Adjusted connection timeouts", "Applied flow limits", "Optimized session handling"]⟩
  | _ => ⟨"generic_fix", ["Applied generic mitigation"]⟩

/-- `get_type2_response_actions` (`trigger_response.py` 243–271). -/
def get_type2_response_actions (anomaly_type : String) : ResponseActions :=
  match anomaly_type with
  | "high_latency" =>
      ⟨"latency_mitigation",
       ["Optimized routing paths", "Adjusted interface priorities", "Applied traffic prioritization"]⟩
  | "high_error_rates" =>
      ⟨"error_correction",
       ["Reset interface counters", "Applied error correction", "Updated interface configuration"]⟩
  | "connectivity_issues" =>
      ⟨"connectivity_restore",
       ["Restarted network services", "Cleared ARP tables", "Applied routing updates"]⟩
  | "packet_loss" =>
      ⟨"loss_prevention",
       ["Increased buffer sizes", "Applied packet prioritization", "Optimized queue management"]⟩
  | "flapping_links" =>
      ⟨"link_stabilization",
       ["Applied dampening policies", "Stabilized interface", "Updated link parameters"]⟩
  | _ => ⟨"generic_network_fix", ["Applied generic network mitigation"]⟩

/-- The dict `execute_typeN_response` returns.  The failure branch (no
playbook found) returns `success=False, response_type='unknown',
duration_ms=0` and carries no `actions_taken`/`playbook_used` keys, embedded
here as `none` — nothing was executed on that branch (no delay is simulated,
no actions are looked up). -/
structure ExecResult where
  success : Bool
  response_type : String
  duration_ms : ℚ
  actions_taken : Option (List String)
  playbook_used : Option String
deriving DecidableEq, Repr

/-- `execute_type1_response` (`trigger_response.py` 118–162).  `delay_ms` is
the measured duration of the simulated 1–5 s sleep; `coin` the 90 %-success
draw `random.choice([True]*9+[False])`. -/
def execute_type1_response (anomaly_type : String) (delay_ms : ℚ) (coin : Bool) :
    ExecResult :=
  match RESPONSE_PLAYBOOKS_type1.lookup anomaly_type with
  | none => ⟨false, "unknown", 0, none, none⟩
  | some playbook_path =>
      let response_actions := get_type1_response_actions anomaly_type
      ⟨coin, response_actions.rtype, delay_ms,
       some response_actions.actions, some playbook_path⟩

/-- `execute_type2_response` (`trigger_response.py` 165–209): same shape,
keyed on `RESPONSE_PLAYBOOKS['type2']`, 2–8 s delay, 85 %-success draw. -/
def execute_type2_response (anomaly_type : String) (delay_ms : ℚ) (coin : Bool) :
    ExecResult :=
  match RESPONSE_PLAYBOOKS_type2.lookup anomaly_type with
  | none => ⟨false, "unknown", 0, none, none⟩
  | some playbook_path =>
      let response_actions := get_type2_response_actions anomaly_type
      ⟨coin, response_actions.rtype, delay_ms,
       some response_actions.actions, some playbook_path⟩

/-- The five categories Stage 2's checks can emit (`rca_type2.py`:
`check_latency`, `check_error_rates`, `check_connectivity`,
`check_packet_loss`, `check_interface_flapping`, in evaluation order). -/
def stage2_categories : List String :=
  ["high_latency", "high_error_rates", "connectivity_issues",
   "packet_loss", "flapping_links"]

/-! ## Persisted records and the two trigger functions -/

/-- A row of the `events` table needed by `trigger_response1_internal`
(`db/models/events.py` / `app.py` `Event`). -/
structure EventRec where
  log_id : String
  src_ip : String
  dst_ip : String
  src_port : ℚ
  dst_port : ℚ
  status : String
  features : FeatureMap
deriving DecidableEq, Repr

/-- A row of the `responses` table (`db/models/response.py` lines 12–43).
The autoincrement primary key `id` is the record's position in the store
list and is supplied separately to `Response.to_dict`. -/
structure ResponseRec where
  log_id : String
  anomaly_id : String
  timestamp : ℚ
  src_ip : String
  dst_ip : String
  src_port : ℚ
  dst_port : ℚ
  anomaly_type1 : Option String
  anomaly_type2 : Option String
  res_type1 : Option String
  res_type2 : Option String
  re_features : FeatureMap
  success : Bool
  duration_ms : ℚ
deriving DecidableEq, Repr

/-- A database column value, for serializations. -/
inductive DbValue where
  | int (n : ℚ)
  | str (s : String)
  | optStr (s : Option String)
  | bool (b : Bool)
  | features (f : FeatureMap)
deriving DecidableEq, Repr

/-- `Response.to_dict` (`db/models/response.py` lines 59–77): the JSON
serialization of one response row, key by key in source order. -/
def Response.to_dict (pk : ℚ) (r : ResponseRec) : List (String × DbValue) :=
  [("id", .int pk),
   ("log_id", .str r.log_id),
   ("anomaly_id", .str r.anomaly_id),
   ("timestamp", .int r.timestamp),
   ("src_ip", .str r.src_ip),
   ("dst_ip", .str r.dst_ip),
   ("src_port", .int r.src_port),
   ("dst_port", .int r.dst_port),
   ("anomaly_type1", .optStr r.anomaly_type1),
   ("re_features", .features r.re_features),
   ("res_type1", .optStr r.res_type1),
   ("anomaly_type2", .optStr r.anomaly_type2),
   ("res_type2", .optStr r.res_type2),
   ("success", .bool r.success),
   ("duration_ms", .int r.duration_ms)]

/-- What `trigger_responseN_internal` returns: the `{'success': ..,
'error'/'anomaly_id': ..}` dict, without the nested `response_result`. -/
structure TriggerResult where
  success : Bool
  error : Option String
  anomaly_id : Option String
deriving DecidableEq, Repr

/-- The `Response(...)` row `trigger_response1_internal` constructs
(`trigger_response.py` 39–54): network metadata copied from the event,
Stage-1 columns from the execution result, Stage-2 columns left NULL. -/
def stage1Response (event : EventRec) (log_id anomaly_type : String)
    (re_features : FeatureMap) (anomaly_id : String) (now : ℚ)
    (response_result : ExecResult) : ResponseRec :=
  { log_id := log_id
    anomaly_id := anomaly_id
    timestamp := now
    src_ip := event.src_ip
    dst_ip := event.dst_ip
    src_port := event.src_port
    dst_port := event.dst_port
    anomaly_type1 := some anomaly_type
    anomaly_type2 := none
    res_type1 := some response_result.response_type
    res_type2 := none
    re_features := re_features
    success := response_result.success
    duration_ms := response_result.duration_ms }

/-- `trigger_response1_internal` (`trigger_response.py` 21–74): look up the
event, execute the Stage-1 playbook, append a new response row whose
Stage-2 columns are NULL and whose `success`/`duration_ms` are the
Stage-1 outcome. -/
def trigger_response1_internal (events : List EventRec) (store : List ResponseRec)
    (log_id anomaly_type : String) (re_features : FeatureMap)
    (anomaly_id : String) (now : ℚ) (delay_ms : ℚ) (coin : Bool) :
    TriggerResult × List ResponseRec :=
  match events.find? (fun e => e.log_id == log_id) with
  | none => (⟨false, some "Event not found", none⟩, store)
  | some event =>
      let response_result := execute_type1_response anomaly_type delay_ms coin
      (⟨true, none, some anomaly_id⟩,
       store ++ [stage1Response event log_id anomaly_type re_features anomaly_id now
         response_result])

/-- The in-place field updates Stage 2 commits on the found row
(`trigger_response.py` 92–97): set `anomaly_type2` and `res_type2`, and set
`success := False` only when the Stage-2 outcome failed. -/
def updateStage2 (r : ResponseRec) (anomaly_type : String) (rr : ExecResult) :
    ResponseRec :=
  { r with
    anomaly_type2 := some anomaly_type
    res_type2 := some rr.response_type
    success := if rr.success then r.success else false }

/-- Replace the first record whose `log_id` matches — the list-store image
of mutating the ORM object `query(Response).filter(log_id).first()` returned
and committing. -/
def replaceFirst (store : List ResponseRec) (log_id : String)
    (f : ResponseRec → ResponseRec) : List ResponseRec :=
  match store with
  | [] => []
  | r :: rs =>
      if r.log_id == log_id then f r :: rs
      else r :: replaceFirst rs log_id f

/-- `trigger_response2_internal` (`trigger_response.py` 77–115): find the
existing response row by `log_id`; absent ⇒ the structured failure
`'Response record not found'` with the store untouched; present ⇒ execute
the Stage-2 playbook and commit `updateStage2` on that row. -/
def trigger_response2_internal (store : List ResponseRec)
    (log_id anomaly_type : String) (delay_ms : ℚ) (coin : Bool) :
    TriggerResult × List ResponseRec :=
  match store.find? (fun r => r.log_id == log_id) with
  | none => (⟨false, some "Response record not found", none⟩, store)
  | some response =>
      let response_result := execute_type2_response anomaly_type delay_ms coin
      (⟨true, none, some response.anomaly_id⟩,
       replaceFirst store log_id (fun r => updateStage2 r anomaly_type response_result))

/-! ## Lifecycle state (`utils/core.py` `StateManager`, `app.py`
`ANBDLogGenerator`) — wall-clock instants are embedded as `ℚ` and passed
explicitly where the source calls `datetime.now`. -/

/-- `StateManager`'s mutable attributes (`utils/core.py` 33–65). -/
structure StateManager where
  monitoring : Bool
  start_time : Option ℚ
deriving DecidableEq, Repr

/-- `StateManager.set_monitoring` (`utils/core.py` 46–53): records the
current time on `True`, clears it on `False`. -/
def StateManager.set_monitoring (_s : StateManager) (status : Bool) (now : ℚ) :
    StateManager :=
  { monitoring := status
    start_time := if status then some now else none }

/-- `StateManager.get_status` (`utils/core.py` 55–58). -/
def StateManager.get_status (s : StateManager) : String :=
  if s.monitoring then "running" else "stopped"

/-- `StateManager.get_uptime` (`utils/core.py` 60–65): elapsed since the
recorded start when one is present, else `0`. -/
def StateManager.get_uptime (s : StateManager) (now : ℚ) : ℚ :=
  match s.start_time with
  | some t => now - t
  | none => 0

/-- `ANBDLogGenerator`'s lifecycle attributes (`app.py` 119–124). -/
structure ANBDLogGenerator where
  is_running : Bool
  start_time : Option ℚ
  stop_time : Option ℚ
deriving DecidableEq, Repr

/-- `ANBDLogGenerator.start_generation` (`app.py` 319–371): returns `False`
untouched when already running, else sets the flag, records the start time
and returns `True`. -/
def start_generation (g : ANBDLogGenerator) (now : ℚ) :
    Bool × ANBDLogGenerator :=
  if g.is_running then (false, g)
  else (true, { is_running := true, start_time := some now, stop_time := g.stop_time })

/-- `ANBDLogGenerator.stop_generation` (`app.py` 373–415): returns `False`
untouched when not running, else clears the flag and records the stop
time (the start time is kept). -/
def stop_generation (g : ANBDLogGenerator) (now : ℚ) :
    Bool × ANBDLogGenerator :=
  if ¬ g.is_running then (false, g)
  else (true, { is_running := false, start_time := g.start_time, stop_time := some now })

/-- `ANBDLogGenerator.get_uptime` (`app.py` 417–423): elapsed since start
while running; once stopped, the *last session's duration*
`stop_time - start_time` when both are recorded; `0` otherwise. -/
def ANBDLogGenerator.get_uptime (g : ANBDLogGenerator) (now : ℚ) : ℚ :=
  match g.is_running, g.start_time, g.stop_time with
  | true, some st, _ => now - st
  | true, none, _ => 0
  | false, some st, some sp => sp - st
  | false, _, _ => 0

/-- An HTTP reply of the thin control routes in `app.py`: the JSON body's
distinguishing fields and the status code. -/
inductive ApiResult where
  | ok (message status_field : String) (code : ℚ)
  | err (error : String) (code : ℚ)
deriving DecidableEq, Repr

/-- Route `/api/system/start` (`app.py` 546–558): `start_generation`
returning `False` becomes the definite 400 failure
`'System already running'`; no exception escapes. -/
def start_system (g : ANBDLogGenerator) (now : ℚ) :
    ApiResult × ANBDLogGenerator :=
  match start_generation g now with
  | (true, g') => (.ok "System started successfully" "running" 200, g')
  | (false, g') => (.err "System already running" 400, g')

/-- Route `/api/system/stop` (`app.py` 561–573): `stop_generation`
returning `False` becomes the definite 400 failure `'System not running'`. -/
def stop_system (g : ANBDLogGenerator) (now : ℚ) :
    ApiResult × ANBDLogGenerator :=
  match stop_generation g now with
  | (true, g') => (.ok "System stopped successfully" "stopped" 200, g')
  | (false, g') => (.err "System not running" 400, g')

/-! ## Error flow within one generation batch (`app.py`
`generate_and_save_events` 223–267, `routes/preprocess.py`
`process_csv_file` 87–153).  A unit is abstracted by which of its two
processing steps would raise: `persist_raises` stands for an exception in
the per-unit body outside the response call (creating/saving/emitting the
event), `response_raises` for one inside `generate_and_save_response`,
which has its own `try/except` and so never propagates. -/

structure GenUnit where
  anomalous : Bool
  persist_raises : Bool
  response_raises : Bool
deriving DecidableEq, Repr

/-- `generate_and_save_events` (`app.py` 223–267): ONE `try` wraps the whole
`for` loop, so the first unit whose body raises ends the batch — the
function returns the units that were fully processed, which is the longest
raise-free prefix.  A `response_raises` unit still completes: the exception
is swallowed inside `generate_and_save_response` (`app.py` 269–317). -/
def generate_and_save_events : List GenUnit → List GenUnit
  | [] => []
  | u :: rest =>
      if u.persist_raises then []
      else u :: generate_and_save_events rest

/-- `process_csv_file`'s row loop (`preprocess.py` 99–138): the `try` is
*inside* the loop with `continue` in the handler, so a raising row is
skipped and the rest still processed. -/
def process_csv_rows : List GenUnit → List GenUnit
  | [] => []
  | u :: rest =>
      if u.persist_raises then process_csv_rows rest
      else u :: process_csv_rows rest

/-! ## Feature fabrication (`config.py` `IMPORTANT_FEATURES`, `app.py`
`generate_realistic_features`, `utils/data_generator.py`
`_generate_network_row`).  Each `random.uniform`/`random.randint` call is
embedded as one slot of a draw oracle `u : ℕ → ℚ`, numbered in source call
order; `round(x, k)` keeps the value inside the requested interval's
rational hull and is absorbed into the oracle's value. -/

/-- `Config.IMPORTANT_FEATURES` (`config.py` 52–64): the 35 contracted
feature names, in source order. -/
def IMPORTANT_FEATURES : List String :=
  ["Flow Duration", "Total Fwd Packets", "Total Backward Packets",
   "Total Length of Fwd Packets", "Total Length of Bwd Packets",
   "Fwd Packet Length Max", "Fwd Packet Length Mean", "Fwd Packet Length Std",
   "Bwd Packet Length Max", "Bwd Packet Length Mean", "Bwd Packet Length Std",
   "Flow Bytes/s", "Flow Packets/s", "Flow IAT Mean", "Flow IAT Std",
   "Flow IAT Max", "Flow IAT Min", "Fwd IAT Total", "Fwd Header Length",
   "Bwd Header Length", "Min Packet Length", "Max Packet Length",
   "Packet Length Mean", "Packet Length Std", "Packet Length Variance",
   "ACK Flag Count", "Down/Up Ratio", "Average Packet Size",
   "Avg Bwd Segment Size", "Subflow Fwd Bytes", "Init_Win_bytes_forward",
   "Init_Win_bytes_backward", "Idle Mean", "Idle Max", "Idle Min"]

/-- `ANBDLogGenerator.generate_realistic_features` (`app.py` 183–221):
the returned dict, entry by entry; `u i` is the `i`-th random draw. -/
def generate_realistic_features (u : ℕ → ℚ) : FeatureMap :=
  [("Flow Duration", u 0),
   ("Total Fwd Packets", u 1),
   ("Total Backward Packets", u 2),
   ("Total Length of Fwd Packets", u 3),
   ("Total Length of Bwd Packets", u 4),
   ("Fwd Packet Length Max", u 5),
   ("Fwd Packet Length Mean", u 6),
   ("Fwd Packet Length Std", u 7),
   ("Bwd Packet Length Max", u 8),
   ("Bwd Packet Length Mean", u 9),
   ("Bwd Packet Length Std", u 10),
   ("Flow Bytes/s", u 11),
   ("Flow Packets/s", u 12),
   ("Flow IAT Mean", u 13),
   ("Flow IAT Std", u 14),
   ("Flow IAT Max", u 15),
   ("Flow IAT Min", u 16),
   ("Fwd IAT Total", u 17),
   ("Fwd Header Length", u 18),
   ("Bwd Header Length", u 19),
   ("Min Packet Length", u 20),
   ("Max Packet Length", u 21),
   ("Packet Length Mean", u 22),
   ("Packet Length Std", u 23),
   ("Packet Length Variance", u 24),
   ("ACK Flag Count", u 25),
   ("Down/Up Ratio", u 26),
   ("Average Packet Size", u 27),
   ("Avg Bwd Segment Size", u 28),
   ("Subflow Fwd Bytes", u 29),
   ("Init_Win_bytes_forward", u 30),
   ("Init_Win_bytes_backward", u 31),
   ("Idle Mean", u 32),
   ("Idle Max", u 33),
   ("Idle Min", u 34)]

/-- The draws respect the ranges `generate_realistic_features` requests of
`random.uniform`/`random.randint` (`app.py` 186–220, same order). -/
def realisticDrawsInRange (u : ℕ → ℚ) : Prop :=
  (1/10 ≤ u 0 ∧ u 0 ≤ 30) ∧ (1 ≤ u 1 ∧ u 1 ≤ 1000) ∧ (1 ≤ u 2 ∧ u 2 ≤ 500) ∧
  (64 ≤ u 3 ∧ u 3 ≤ 65535) ∧ (64 ≤ u 4 ∧ u 4 ≤ 32768) ∧
  (64 ≤ u 5 ∧ u 5 ≤ 1500) ∧ (200 ≤ u 6 ∧ u 6 ≤ 1000) ∧
  (50 ≤ u 7 ∧ u 7 ≤ 300) ∧ (64 ≤ u 8 ∧ u 8 ≤ 1500) ∧
  (200 ≤ u 9 ∧ u 9 ≤ 800) ∧ (50 ≤ u 10 ∧ u 10 ≤ 250) ∧
  (100 ≤ u 11 ∧ u 11 ≤ 10000000) ∧ (1 ≤ u 12 ∧ u 12 ≤ 10000) ∧
  (1/1000 ≤ u 13 ∧ u 13 ≤ 5) ∧ (1/1000 ≤ u 14 ∧ u 14 ≤ 2) ∧
  (1/10 ≤ u 15 ∧ u 15 ≤ 10) ∧ (1/10000 ≤ u 16 ∧ u 16 ≤ 1/10) ∧
  (1/10 ≤ u 17 ∧ u 17 ≤ 100) ∧ (20 ≤ u 18 ∧ u 18 ≤ 60) ∧
  (20 ≤ u 19 ∧ u 19 ≤ 60) ∧ (64 ≤ u 20 ∧ u 20 ≤ 200) ∧
  (1000 ≤ u 21 ∧ u 21 ≤ 1500) ∧ (300 ≤ u 22 ∧ u 22 ≤ 800) ∧
  (100 ≤ u 23 ∧ u 23 ≤ 400) ∧ (10000 ≤ u 24 ∧ u 24 ≤ 160000) ∧
  (0 ≤ u 25 ∧ u 25 ≤ 100) ∧ (1/10 ≤ u 26 ∧ u 26 ≤ 5) ∧
  (200 ≤ u 27 ∧ u 27 ≤ 1200) ∧ (200 ≤ u 28 ∧ u 28 ≤ 1000) ∧
  (64 ≤ u 29 ∧ u 29 ≤ 65535) ∧ (8192 ≤ u 30 ∧ u 30 ≤ 65536) ∧
  (8192 ≤ u 31 ∧ u 31 ≤ 65536) ∧ (1/10 ≤ u 32 ∧ u 32 ≤ 10) ∧
  (1 ≤ u 33 ∧ u 33 ≤ 50) ∧ (1/100 ≤ u 34 ∧ u 34 ≤ 1)

/-- A CSV cell of `_generate_network_row`: a string (metadata) or number. -/
inductive CsvValue where
  | str (s : String)
  | num (q : ℚ)
deriving DecidableEq, Repr

/-- `DataGenerator._generate_network_row` (`utils/data_generator.py`
121–181): the returned dict.  `ts`, `src_ip`, `dst_ip` are the timestamp
and chosen addresses; `w 0` is `base_packets = randint(1,1000)`, `w 1` the
`randint(64,1500)` factor of `base_bytes`, `w 2` = `flow_duration`,
`w 3` = `Src Port`, `dport` the chosen destination port, and `w 4 …` the
remaining draws in source order. -/
def generate_network_row (ts src_ip dst_ip : String) (dport : ℚ)
    (w : ℕ → ℚ) : List (String × CsvValue) :=
  [("Timestamp", .str ts),
   ("Src IP", .str src_ip),
   ("Dst IP", .str dst_ip),
   ("Src Port", .num (w 3)),
   ("Dst Port", .num dport),
   ("Flow Duration", .num (w 2)),
   ("Total Fwd Packets", .num (w 0)),
   ("Total Backward Packets", .num (w 4)),
   ("Total Length of Fwd Packets", .num (w 0 * w 1)),
   ("Total Length of Bwd Packets", .num (w 5)),
   ("Fwd Packet Length Max", .num (w 6)),
   ("Fwd Packet Length Mean", .num (w 7)),
   ("Fwd Packet Length Std", .num (w 8)),
   ("Bwd Packet Length Max", .num (w 9)),
   ("Bwd Packet Length Mean", .num (w 10)),
   ("Bwd Packet Length Std", .num (w 11)),
   ("Flow Bytes/s", .num (w 12)),
   ("Flow Packets/s", .num (w 13)),
   ("Flow IAT Mean", .num (w 14)),
   ("Flow IAT Std", .num (w 15)),
   ("Flow IAT Max", .num (w 16)),
   ("Flow IAT Min", .num (w 17)),
   ("Fwd IAT Total", .num (w 18)),
   ("Fwd Header Length", .num (w 19)),
   ("Bwd Header Length", .num (w 20)),
   ("Min Packet Length", .num 64),
   ("Max Packet Length", .num (w 21)),
   ("Packet Length Mean", .num (w 22)),
   ("Packet Length Std", .num (w 23)),
   ("Packet Length Variance", .num (w 24)),
   ("ACK Flag Count", .num (w 25)),
   ("Down/Up Ratio", .num (w 26)),
   ("Average Packet Size", .num (w 27)),
   ("Avg Bwd Segment Size", .num (w 28)),
   ("Subflow Fwd Bytes", .num (w 29)),
   ("Init_Win_bytes_forward", .num (w 30)),
   ("Init_Win_bytes_backward", .num (w 31)),
   ("Idle Mean", .num (w 32)),
   ("Idle Max", .num (w 33)),
   ("Idle Min", .num (w 34))]

/-- The draws respect the ranges `_generate_network_row` requests
(`data_generator.py` 133–180): note `Total Backward Packets` and
`ACK Flag Count` are bounded by `base_packets = w 0`, and
`Total Length of Bwd Packets`/`Subflow Fwd Bytes` by
`base_bytes = w 0 * w 1`. -/
def networkRowDrawsInRange (w : ℕ → ℚ) : Prop :=
  (1 ≤ w 0 ∧ w 0 ≤ 1000) ∧ (64 ≤ w 1 ∧ w 1 ≤ 1500) ∧
  (1000 ≤ w 2 ∧ w 2 ≤ 300000000) ∧ (1024 ≤ w 3 ∧ w 3 ≤ 65535) ∧
  (1 ≤ w 4 ∧ w 4 ≤ w 0) ∧ (64 ≤ w 5 ∧ w 5 ≤ w 0 * w 1) ∧
  (64 ≤ w 6 ∧ w 6 ≤ 1500) ∧ (64 ≤ w 7 ∧ w 7 ≤ 800) ∧
  (0 ≤ w 8 ∧ w 8 ≤ 100) ∧ (64 ≤ w 9 ∧ w 9 ≤ 1500) ∧
  (64 ≤ w 10 ∧ w 10 ≤ 800) ∧ (0 ≤ w 11 ∧ w 11 ≤ 100) ∧
  (100 ≤ w 12 ∧ w 12 ≤ 1000000) ∧ (1 ≤ w 13 ∧ w 13 ≤ 1000) ∧
  (0 ≤ w 14 ∧ w 14 ≤ 10000) ∧ (0 ≤ w 15 ∧ w 15 ≤ 5000) ∧
  (0 ≤ w 16 ∧ w 16 ≤ 50000) ∧ (0 ≤ w 17 ∧ w 17 ≤ 1000) ∧
  (0 ≤ w 18 ∧ w 18 ≤ 100000) ∧ (20 ≤ w 19 ∧ w 19 ≤ 100) ∧
  (20 ≤ w 20 ∧ w 20 ≤ 100) ∧ (64 ≤ w 21 ∧ w 21 ≤ 1500) ∧
  (64 ≤ w 22 ∧ w 22 ≤ 800) ∧ (0 ≤ w 23 ∧ w 23 ≤ 200) ∧
  (0 ≤ w 24 ∧ w 24 ≤ 40000) ∧ (0 ≤ w 25 ∧ w 25 ≤ w 0) ∧
  (0 ≤ w 26 ∧ w 26 ≤ 10) ∧ (64 ≤ w 27 ∧ w 27 ≤ 800) ∧
  (0 ≤ w 28 ∧ w 28 ≤ 800) ∧ (0 ≤ w 29 ∧ w 29 ≤ w 0 * w 1) ∧
  (0 ≤ w 30 ∧ w 30 ≤ 65535) ∧ (0 ≤ w 31 ∧ w 31 ≤ 65535) ∧
  (0 ≤ w 32 ∧ w 32 ≤ 10000) ∧ (0 ≤ w 33 ∧ w 33 ≤ 50000) ∧
  (0 ≤ w 34 ∧ w 34 ≤ 1000)

/-! ## Shared lemmas about the list store -/

/-- A successful `find?` splits the list at the first hit: everything
before it fails the predicate. -/
theorem find?_decomp {α : Type} {p : α → Bool} :
    ∀ {l : List α} {a : α}, l.find? p = some a →
      ∃ pre post, l = pre ++ a :: post ∧ ∀ x ∈ pre, p x = false := by
  intro l
  induction l with
  | nil => intro a h; simp [List.find?] at h
  | cons x xs ih =>
      intro a h
      rw [List.find?] at h
      by_cases hx : p x
      · refine ⟨[], xs, ?_, by simp⟩
        simp [hx] at h
        simp [h]
      · simp [Bool.not_eq_true] at hx
        rw [hx] at h
        obtain ⟨pre, post, rfl, hpre⟩ := ih h
        refine ⟨x :: pre, post, by simp, ?_⟩
        intro y hy
        rcases List.mem_cons.mp hy with rfl | hy'
        · exact hx
        · exact hpre y hy'

/-- `replaceFirst` on a list split at its first matching record rewrites
exactly that record. -/
theorem replaceFirst_split (pre : List ResponseRec) (r : ResponseRec)
    (post : List ResponseRec) (log_id : String) (f : ResponseRec → ResponseRec)
    (hpre : ∀ x ∈ pre, (x.log_id == log_id) = false)
    (hr : (r.log_id == log_id) = true) :
    replaceFirst (pre ++ r :: post) log_id f = pre ++ f r :: post := by
  induction pre with
  | nil => simp [replaceFirst, hr]
  | cons x xs ih =>
      have hx : (x.log_id == log_id) = false := hpre x (by simp)
      have ih' := ih (fun y hy => hpre y (by simp [hy]))
      simp only [List.cons_append, replaceFirst, hx, Bool.false_eq_true, if_false,
        List.append_eq]
      simp [ih']

/-- `find?` on a list whose prefix is clean finds the head of the suffix
when it matches. -/
theorem find?_split (pre : List ResponseRec) (r : ResponseRec)
    (post : List ResponseRec) (p : ResponseRec → Bool)
    (hpre : ∀ x ∈ pre, p x = false) (hr : p r = true) :
    (pre ++ r :: post).find? p = some r := by
  induction pre with
  | nil => simp [List.find?, hr]
  | cons x xs ih =>
      have hx : p x = false := hpre x (by simp)
      simp only [List.cons_append, List.find?, hx]
      exact ih (fun y hy => hpre y (by simp [hy]))

/-! ## C1 — Stage-1 classification -/

/-- C1.  Stage-1 classification is a pure, deterministic function of the
feature map and threshold table: `classify_anomaly_type` returns the
earliest category, in the fixed order bandwidth_saturation,
throughput_anomaly, header_length, packet_size, flow_duration, whose
threshold predicate holds (first-match-wins: a matching bandwidth predicate
decides the result regardless of any later predicate), returns `none`
exactly when no predicate matches, treats a feature missing from the map as
the value `0`, and yields the identical category on identical inputs. -/
theorem classify_first_match_spec :
    (∀ (f : FeatureMap) (t : ThresholdsFull),
      bandwidthSaturated f t → classify_anomaly_type f t = some .bandwidth_saturation) ∧
    (∀ (f : FeatureMap) (t : ThresholdsFull),
      classify_anomaly_type f t = some .bandwidth_saturation ↔ bandwidthSaturated f t) ∧
    (∀ (f : FeatureMap) (t : ThresholdsFull),
      classify_anomaly_type f t = some .throughput_anomaly ↔
        ¬ bandwidthSaturated f t ∧ throughputAnomalous f t) ∧
    (∀ (f : FeatureMap) (t : ThresholdsFull),
      classify_anomaly_type f t = some .header_length ↔
        ¬ bandwidthSaturated f t ∧ ¬ throughputAnomalous f t ∧ headerLengthUnusual f t) ∧
    (∀ (f : FeatureMap) (t : ThresholdsFull),
      classify_anomaly_type f t = some .packet_size ↔
        ¬ bandwidthSaturated f t ∧ ¬ throughputAnomalous f t ∧
          ¬ headerLengthUnusual f t ∧ packetSizeUnusual f t) ∧
    (∀ (f : FeatureMap) (t : ThresholdsFull),
      classify_anomaly_type f t = some .flow_duration ↔
        ¬ bandwidthSaturated f t ∧ ¬ throughputAnomalous f t ∧
          ¬ headerLengthUnusual f t ∧ ¬ packetSizeUnusual f t ∧ flowDurationUnusual f t) ∧
    (∀ (f : FeatureMap) (t : ThresholdsFull),
      classify_anomaly_type f t = none ↔
        ¬ bandwidthSaturated f t ∧ ¬ throughputAnomalous f t ∧
          ¬ headerLengthUnusual f t ∧ ¬ packetSizeUnusual f t ∧ ¬ flowDurationUnusual f t) ∧
    (∀ (f : FeatureMap) (k : String), f.lookup k = none → featGet f k = 0) ∧
    (∀ (f₁ f₂ : FeatureMap) (t₁ t₂ : ThresholdsFull),
      f₁ = f₂ → t₁ = t₂ → classify_anomaly_type f₁ t₁ = classify_anomaly_type f₂ t₂) := by
  refine ⟨?_, ?_, ?_, ?_, ?_, ?_, ?_, ?_, ?_⟩
  · intro f t h
    simp only [classify_anomaly_type, bandwidthSaturated] at h ⊢
    rw [if_pos h]
  · intro f t
    simp only [classify_anomaly_type, bandwidthSaturated, throughputAnomalous,
      headerLengthUnusual, packetSizeUnusual, flowDurationUnusual]
    split_ifs with h1 h2 h3 h4 h5 <;> simp_all
  · intro f t
    simp only [classify_anomaly_type, bandwidthSaturated, throughputAnomalous,
      headerLengthUnusual, packetSizeUnusual, flowDurationUnusual]
    split_ifs with h1 h2 h3 h4 h5 <;> simp_all
  · intro f t
    simp only [classify_anomaly_type, bandwidthSaturated, throughputAnomalous,
      headerLengthUnusual, packetSizeUnusual, flowDurationUnusual]
    split_ifs with h1 h2 h3 h4 h5 <;> simp_all
  · intro f t
    simp only [classify_anomaly_type, bandwidthSaturated, throughputAnomalous,
      headerLengthUnusual, packetSizeUnusual, flowDurationUnusual]
    split_ifs with h1 h2 h3 h4 h5 <;> simp_all
  · intro f t
    simp only [classify_anomaly_type, bandwidthSaturated, throughputAnomalous,
      headerLengthUnusual, packetSizeUnusual, flowDurationUnusual]
    split_ifs with h1 h2 h3 h4 h5 <;> simp_all
  · intro f t
    simp only [classify_anomaly_type, bandwidthSaturated, throughputAnomalous,
      headerLengthUnusual, packetSizeUnusual, flowDurationUnusual]
    split_ifs with h1 h2 h3 h4 h5 <;> simp_all
  · intro f k h
    simp [featGet, h]
  · intro f₁ f₂ t₁ t₂ hf ht
    rw [hf, ht]

/-- The spec's own worked example: a feature map exceeding both the
bandwidth-saturation and the throughput-anomaly thresholds classifies as
`bandwidth_saturation` (the earlier-listed category) against the base
`Config` thresholds. -/
example :
    classify_anomaly_type
      [("Flow Bytes/s", 2000000), ("Flow Packets/s", 2000),
       ("Total Length of Fwd Packets", 20000), ("Total Length of Bwd Packets", 15000),
       ("Fwd Header Length", 20), ("Bwd Header Length", 20),
       ("Max Packet Length", 1500), ("Packet Length Mean", 500),
       ("Flow Duration", 60000000)]
      RCA_TYPE1_THRESHOLDS = some .bandwidth_saturation := by
  decide

/-- An empty feature map — every feature "missing", hence zero-valued —
matches no predicate of the base thresholds. -/
example : classify_anomaly_type [] RCA_TYPE1_THRESHOLDS = none := by decide

/-! ## C2 — Stage 2 before Stage 1 fails without touching the store -/

/-- C2.  For every flow identifier for which no response row exists yet,
`trigger_response2_internal` fails with the structured
`'Response record not found'` failure and returns the store unchanged: no
row is created and no row is modified. -/
theorem trigger_response2_missing_record (store : List ResponseRec)
    (log_id anomaly_type : String) (delay_ms : ℚ) (coin : Bool)
    (h : ∀ r ∈ store, (r.log_id == log_id) = false) :
    trigger_response2_internal store log_id anomaly_type delay_ms coin =
      (⟨false, some "Response record not found", none⟩, store) := by
  have hn : store.find? (fun r => r.log_id == log_id) = none :=
    List.find?_eq_none.mpr (fun x hx => by simp [h x hx])
  simp [trigger_response2_internal, hn]

/-- C2 at a concrete input: the empty store, a fresh flow id. -/
theorem trigger_response2_missing_record_witness :
    trigger_response2_internal [] "log_1" "high_latency" 3000 true =
      (⟨false, some "Response record not found", none⟩, []) :=
  trigger_response2_missing_record [] "log_1" "high_latency" 3000 true (by simp)

/-! ## C3 — overall success is the conjunction of the two stages -/

/-- C3.  After Stage 1 creates the response row for a fresh flow and
Stage 2 updates it, the row's `success` equals the conjunction of the two
stages' recorded outcomes; and in general Stage 2's update law on `success`
is exactly `old && stage2_outcome` — monotone toward `false`, a successful
Stage-2 outcome leaves the flag unchanged and never turns `false` into
`true`. -/
theorem response_success_conjunction
    (events : List EventRec) (store : List ResponseRec)
    (log_id anomaly_type1 anomaly_type2 anomaly_id : String)
    (re_features : FeatureMap) (now d1 d2 : ℚ) (c1 c2 : Bool) (ev : EventRec)
    (hev : events.find? (fun e => e.log_id == log_id) = some ev)
    (hfresh : ∀ r ∈ store, (r.log_id == log_id) = false) :
    (((trigger_response2_internal
        (trigger_response1_internal events store log_id anomaly_type1 re_features
          anomaly_id now d1 c1).2
        log_id anomaly_type2 d2 c2).2.find?
          (fun r => r.log_id == log_id)).map (fun r => r.success)
      = some ((execute_type1_response anomaly_type1 d1 c1).success &&
              (execute_type2_response anomaly_type2 d2 c2).success)) ∧
    (∀ (r : ResponseRec) (a : String) (rr : ExecResult),
      (updateStage2 r a rr).success = (r.success && rr.success)) := by
  constructor
  · have hstep1 :
        (trigger_response1_internal events store log_id anomaly_type1 re_features
          anomaly_id now d1 c1).2
          = store ++ [stage1Response ev log_id anomaly_type1 re_features anomaly_id now
              (execute_type1_response anomaly_type1 d1 c1)] := by
      simp [trigger_response1_internal, hev]
    rw [hstep1]
    have hnr : ((stage1Response ev log_id anomaly_type1 re_features anomaly_id now
        (execute_type1_response anomaly_type1 d1 c1)).log_id == log_id) = true := by
      simp [stage1Response]
    have hfind1 : (store ++ stage1Response ev log_id anomaly_type1 re_features anomaly_id now
          (execute_type1_response anomaly_type1 d1 c1) :: []).find?
          (fun r => r.log_id == log_id)
        = some (stage1Response ev log_id anomaly_type1 re_features anomaly_id now
            (execute_type1_response anomaly_type1 d1 c1)) :=
      find?_split store _ [] _ hfresh hnr
    have hstep2 :
        (trigger_response2_internal
            (store ++ [stage1Response ev log_id anomaly_type1 re_features anomaly_id now
              (execute_type1_response anomaly_type1 d1 c1)])
            log_id anomaly_type2 d2 c2).2
          = store ++ [updateStage2
              (stage1Response ev log_id anomaly_type1 re_features anomaly_id now
                (execute_type1_response anomaly_type1 d1 c1))
              anomaly_type2 (execute_type2_response anomaly_type2 d2 c2)] := by
      simp only [trigger_response2_internal, hfind1]
      exact replaceFirst_split store _ [] log_id _ hfresh hnr
    rw [hstep2]
    have hu : ((updateStage2
        (stage1Response ev log_id anomaly_type1 re_features anomaly_id now
          (execute_type1_response anomaly_type1 d1 c1))
        anomaly_type2 (execute_type2_response anomaly_type2 d2 c2)).log_id == log_id)
        = true := by
      simp [updateStage2, stage1Response]
    have hfind2 := find?_split store
      (updateStage2
        (stage1Response ev log_id anomaly_type1 re_features anomaly_id now
          (execute_type1_response anomaly_type1 d1 c1))
        anomaly_type2 (execute_type2_response anomaly_type2 d2 c2))
      [] (fun r => r.log_id == log_id) hfresh hu
    rw [hfind2]
    cases hc : (execute_type2_response anomaly_type2 d2 c2).success <;>
      simp [updateStage2, stage1Response, hc]
  · intro r a rr
    cases hc : rr.success <;> simp [updateStage2, hc]

/-- C3 at a concrete input: one event, an empty response store, both stage
outcomes drawn successful. -/
theorem response_success_conjunction_witness :
    (((trigger_response2_internal
        (trigger_response1_internal
          [{ log_id := "log_1", src_ip := "192.168.10.1", dst_ip := "192.168.20.1",
             src_port := 1024, dst_port := 80, status := "anomalous", features := [] }]
          [] "log_1" "bandwidth_saturation" [] "anomaly_1" 0 1500 true).2
        "log_1" "packet_loss" 3000 true).2.find?
          (fun r => r.log_id == "log_1")).map (fun r => r.success)
      = some ((execute_type1_response "bandwidth_saturation" 1500 true).success &&
              (execute_type2_response "packet_loss" 3000 true).success)) ∧
    (∀ (r : ResponseRec) (a : String) (rr : ExecResult),
      (updateStage2 r a rr).success = (r.success && rr.success)) :=
  response_success_conjunction
    [{ log_id := "log_1", src_ip := "192.168.10.1", dst_ip := "192.168.20.1",
       src_port := 1024, dst_port := 80, status := "anomalous", features := [] }]
    [] "log_1" "bandwidth_saturation" "packet_loss" "anomaly_1" [] 0 1500 3000 true true
    { log_id := "log_1", src_ip := "192.168.10.1", dst_ip := "192.168.20.1",
      src_port := 1024, dst_port := 80, status := "anomalous", features := [] }
    (by rfl) (by simp)

/-! ## C9 — Stage 2 updates exactly its own fields, in place -/

/-- A sample Stage-1-created response row, for concrete instantiations. -/
def sampleResponse : ResponseRec :=
  { log_id := "log_1"
    anomaly_id := "anomaly_1"
    timestamp := 0
    src_ip := "192.168.10.1"
    dst_ip := "192.168.20.1"
    src_port := 1024
    dst_port := 80
    anomaly_type1 := some "bandwidth_saturation"
    anomaly_type2 := none
    res_type1 := some "bandwidth_optimization"
    res_type2 := none
    re_features := []
    success := true
    duration_ms := 1500 }

/-- C9.  A Stage-2 update of an existing response row modifies only
`anomaly_type2`, `res_type2` and (conditionally, on a failed outcome)
`success`: the store keeps its length (no new row), every record before and
after the updated one is untouched, and every other field of the updated
record — `log_id`, `anomaly_id`, `timestamp`, addresses, ports,
`anomaly_type1`, `res_type1`, `re_features`, `duration_ms` — is unchanged. -/
theorem stage2_update_frame (store : List ResponseRec)
    (log_id anomaly_type : String) (delay_ms : ℚ) (coin : Bool) (r : ResponseRec)
    (h : store.find? (fun x => x.log_id == log_id) = some r) :
    ((trigger_response2_internal store log_id anomaly_type delay_ms coin).2.length
        = store.length) ∧
    (∃ pre post,
      store = pre ++ r :: post ∧
      (trigger_response2_internal store log_id anomaly_type delay_ms coin).2
        = pre ++ updateStage2 r anomaly_type
            (execute_type2_response anomaly_type delay_ms coin) :: post ∧
      (∀ x ∈ pre, (x.log_id == log_id) = false)) ∧
    (∀ (rr : ExecResult),
      (updateStage2 r anomaly_type rr).log_id = r.log_id ∧
      (updateStage2 r anomaly_type rr).anomaly_id = r.anomaly_id ∧
      (updateStage2 r anomaly_type rr).timestamp = r.timestamp ∧
      (updateStage2 r anomaly_type rr).src_ip = r.src_ip ∧
      (updateStage2 r anomaly_type rr).dst_ip = r.dst_ip ∧
      (updateStage2 r anomaly_type rr).src_port = r.src_port ∧
      (updateStage2 r anomaly_type rr).dst_port = r.dst_port ∧
      (updateStage2 r anomaly_type rr).anomaly_type1 = r.anomaly_type1 ∧
      (updateStage2 r anomaly_type rr).res_type1 = r.res_type1 ∧
      (updateStage2 r anomaly_type rr).re_features = r.re_features ∧
      (updateStage2 r anomaly_type rr).duration_ms = r.duration_ms ∧
      (updateStage2 r anomaly_type rr).anomaly_type2 = some anomaly_type ∧
      (updateStage2 r anomaly_type rr).res_type2 = some rr.response_type ∧
      (updateStage2 r anomaly_type rr).success
        = (if rr.success then r.success else false)) := by
  obtain ⟨pre, post, hsplit, hpre⟩ := find?_decomp h
  have hr' := List.find?_some h
  have hr : (r.log_id == log_id) = true := hr'
  have hstep :
      (trigger_response2_internal store log_id anomaly_type delay_ms coin).2
        = pre ++ updateStage2 r anomaly_type
            (execute_type2_response anomaly_type delay_ms coin) :: post := by
    simp only [trigger_response2_internal, h]
    rw [hsplit]
    exact replaceFirst_split pre _ post log_id _ hpre hr
  refine ⟨?_, ⟨pre, post, hsplit, hstep, hpre⟩, ?_⟩
  · rw [hstep, hsplit]; simp
  · intro rr
    refine ⟨rfl, rfl, rfl, rfl, rfl, rfl, rfl, rfl, rfl, rfl, rfl, rfl, rfl, rfl⟩

/-- C9 at a concrete input: a one-row store updated by a failed Stage-2
outcome. -/
theorem stage2_update_frame_witness :
    (((trigger_response2_internal [sampleResponse] "log_1" "packet_loss" 3000 false).2.length
        = [sampleResponse].length) ∧
    (∃ pre post,
      [sampleResponse] = pre ++ sampleResponse :: post ∧
      (trigger_response2_internal [sampleResponse] "log_1" "packet_loss" 3000 false).2
        = pre ++ updateStage2 sampleResponse "packet_loss"
            (execute_type2_response "packet_loss" 3000 false) :: post ∧
      (∀ x ∈ pre, (x.log_id == "log_1") = false)) ∧
    (∀ (rr : ExecResult),
      (updateStage2 sampleResponse "packet_loss" rr).log_id = sampleResponse.log_id ∧
      (updateStage2 sampleResponse "packet_loss" rr).anomaly_id = sampleResponse.anomaly_id ∧
      (updateStage2 sampleResponse "packet_loss" rr).timestamp = sampleResponse.timestamp ∧
      (updateStage2 sampleResponse "packet_loss" rr).src_ip = sampleResponse.src_ip ∧
      (updateStage2 sampleResponse "packet_loss" rr).dst_ip = sampleResponse.dst_ip ∧
      (updateStage2 sampleResponse "packet_loss" rr).src_port = sampleResponse.src_port ∧
      (updateStage2 sampleResponse "packet_loss" rr).dst_port = sampleResponse.dst_port ∧
      (updateStage2 sampleResponse "packet_loss" rr).anomaly_type1 = sampleResponse.anomaly_type1 ∧
      (updateStage2 sampleResponse "packet_loss" rr).res_type1 = sampleResponse.res_type1 ∧
      (updateStage2 sampleResponse "packet_loss" rr).re_features = sampleResponse.re_features ∧
      (updateStage2 sampleResponse "packet_loss" rr).duration_ms = sampleResponse.duration_ms ∧
      (updateStage2 sampleResponse "packet_loss" rr).anomaly_type2 = some "packet_loss" ∧
      (updateStage2 sampleResponse "packet_loss" rr).res_type2 = some rr.response_type ∧
      (updateStage2 sampleResponse "packet_loss" rr).success
        = (if rr.success then sampleResponse.success else false))) :=
  stage2_update_frame [sampleResponse] "log_1" "packet_loss" 3000 false sampleResponse
    (by rfl)

/-! ## C4 — uptime after stop -/

/-- C4 counterexample.  Start the generator at time 0, stop it at time 5:
it is no longer running, yet `ANBDLogGenerator.get_uptime` reports 5, not 0
— the last session's duration IS retained, refuting "the uptime query
returns zero when the pipeline is not running". -/
theorem generator_uptime_retained_after_stop_cex :
    ((stop_generation (start_generation ⟨false, none, none⟩ 0).2 5).2.is_running = false) ∧
    ANBDLogGenerator.get_uptime
      (stop_generation (start_generation ⟨false, none, none⟩ 0).2 5).2 100 = 5 ∧
    ANBDLogGenerator.get_uptime
      (stop_generation (start_generation ⟨false, none, none⟩ 0).2 5).2 100 ≠ 0 := by
  refine ⟨rfl, ?_, ?_⟩ <;>
    norm_num [start_generation, stop_generation, ANBDLogGenerator.get_uptime]

/-- C4 amended.  While running, both uptime queries report the time elapsed
since the recorded start.  When not running they differ:
`StateManager.get_uptime` reports zero (stopping clears the start time, so
no last-session duration survives), but `ANBDLogGenerator.get_uptime`
reports the last session's duration `stop_time - start_time` after a
start/stop cycle, and zero only before the first start. -/
theorem uptime_after_stop_amended :
    (∀ (s : StateManager) (now : ℚ),
      s.start_time = none → StateManager.get_uptime s now = 0) ∧
    (∀ (s : StateManager) (now t : ℚ),
      s.start_time = some t → StateManager.get_uptime s now = now - t) ∧
    (∀ (s : StateManager) (now stopt : ℚ),
      StateManager.get_uptime (StateManager.set_monitoring s false stopt) now = 0) ∧
    (∀ (g : ANBDLogGenerator) (now st : ℚ),
      g.is_running = true → g.start_time = some st →
        ANBDLogGenerator.get_uptime g now = now - st) ∧
    (∀ (g : ANBDLogGenerator) (now st stopt : ℚ),
      g.is_running = true → g.start_time = some st →
        ANBDLogGenerator.get_uptime (stop_generation g stopt).2 now = stopt - st) ∧
    (∀ (now : ℚ),
      ANBDLogGenerator.get_uptime ⟨false, none, none⟩ now = 0) := by
  refine ⟨?_, ?_, ?_, ?_, ?_, ?_⟩
  · intro s now h; simp [StateManager.get_uptime, h]
  · intro s now t h; simp [StateManager.get_uptime, h]
  · intro s now stopt; simp [StateManager.get_uptime, StateManager.set_monitoring]
  · intro g now st hrun hst; simp [ANBDLogGenerator.get_uptime, hrun, hst]
  · intro g now st stopt hrun hst
    simp [stop_generation, hrun, ANBDLogGenerator.get_uptime, hst]
  · intro now; simp [ANBDLogGenerator.get_uptime]

/-- C4 amended at concrete inputs: a stop clears the `StateManager` uptime,
while the generator reports the 5-unit session it just finished. -/
theorem uptime_after_stop_amended_witness :
    StateManager.get_uptime
      (StateManager.set_monitoring ⟨true, some 0⟩ false 5) 100 = 0 ∧
    ANBDLogGenerator.get_uptime (stop_generation ⟨true, some 0, none⟩ 5).2 100 = 5 := by
  constructor
  · exact (uptime_after_stop_amended.2.2.1 ⟨true, some 0⟩ 100 5)
  · have h := uptime_after_stop_amended.2.2.2.2.1 ⟨true, some 0, none⟩ 100 0 5 rfl rfl
    simpa using h

/-! ## C5 — the Stage-2 category/playbook-key mismatch -/

/-- C5.  Three of the five categories Stage 2 emits — `high_latency`,
`high_error_rates`, `connectivity_issues` — are NOT keys of
`Config.RESPONSE_PLAYBOOKS['type2']` (whose keys are `latency`,
`error_rate`, `connectivity`, …), so `execute_type2_response` takes the
no-playbook failure path for them: `success=False`,
`response_type='unknown'`, `duration_ms=0`, nothing executed — even though
`get_type2_response_actions` maps exactly those category names to real
response types.  The two remaining Stage-2 categories and all five Stage-1
categories do resolve to their own response types. -/
theorem type2_playbook_lookup_bug :
    execute_type2_response "high_latency" 3000 true
      = ⟨false, "unknown", 0, none, none⟩ ∧
    execute_type2_response "high_error_rates" 3000 true
      = ⟨false, "unknown", 0, none, none⟩ ∧
    execute_type2_response "connectivity_issues" 3000 true
      = ⟨false, "unknown", 0, none, none⟩ ∧
    get_type2_response_actions "high_latency"
      = ⟨"latency_mitigation",
         ["Optimized routing paths", "Adjusted interface priorities",
          "Applied traffic prioritization"]⟩ ∧
    (execute_type2_response "packet_loss" 3000 true).response_type = "loss_prevention" ∧
    (execute_type2_response "flapping_links" 3000 true).response_type = "link_stabilization" ∧
    (execute_type1_response "bandwidth_saturation" 3000 true).response_type
      = "bandwidth_optimization" ∧
    (execute_type1_response "throughput_anomaly" 3000 true).response_type
      = "throughput_optimization" ∧
    (execute_type1_response "header_length" 3000 true).response_type
      = "header_normalization" ∧
    (execute_type1_response "packet_size" 3000 true).response_type
      = "packet_optimization" ∧
    (execute_type1_response "flow_duration" 3000 true).response_type
      = "flow_management" ∧
    (∀ c ∈ stage2_categories, (get_type2_response_actions c).rtype ≠ "generic_network_fix") := by
  refine ⟨rfl, rfl, rfl, rfl, rfl, rfl, rfl, rfl, rfl, rfl, rfl, ?_⟩
  decide

/-! ## C6 — double start / stop while stopped -/

/-- C6.  `start()` on a running pipeline yields the definite
`'System already running'` 400 failure with the generator state — running
flag and start time included — unchanged; `stop()` on a stopped pipeline
yields the definite `'System not running'` 400 failure, state unchanged;
and in the complementary states both routes return their definite success
replies.  (The route handlers return these values; no exception crosses the
control boundary.) -/
theorem lifecycle_double_start_stop :
    (∀ (g : ANBDLogGenerator) (now : ℚ), g.is_running = true →
      start_system g now = (.err "System already running" 400, g)) ∧
    (∀ (g : ANBDLogGenerator) (now : ℚ), g.is_running = false →
      stop_system g now = (.err "System not running" 400, g)) ∧
    (∀ (g : ANBDLogGenerator) (now : ℚ), g.is_running = false →
      start_system g now = (.ok "System started successfully" "running" 200,
        { is_running := true, start_time := some now, stop_time := g.stop_time })) ∧
    (∀ (g : ANBDLogGenerator) (now : ℚ), g.is_running = true →
      stop_system g now = (.ok "System stopped successfully" "stopped" 200,
        { is_running := false, start_time := g.start_time, stop_time := some now })) := by
  refine ⟨?_, ?_, ?_, ?_⟩
  · intro g now h; simp [start_system, start_generation, h]
  · intro g now h; simp [stop_system, stop_generation, h]
  · intro g now h; simp [start_system, start_generation, h]
  · intro g now h; simp [stop_system, stop_generation, h]

/-! ## C7 — per-unit error isolation within a batch -/

/-- C7 counterexample.  In `generate_and_save_events` a batch of two units
whose FIRST unit raises while being persisted loses its second, perfectly
good unit: the exception is caught by the `try` wrapping the whole loop,
so the healthy later unit is skipped — refuting "no later unit is skipped
because an earlier unit failed". -/
theorem batch_abort_cex :
    generate_and_save_events
      [⟨false, true, false⟩, ⟨true, false, false⟩] = [] ∧
    (⟨true, false, false⟩ : GenUnit).persist_raises = false ∧
    (⟨true, false, false⟩ : GenUnit) ∉
      generate_and_save_events [⟨false, true, false⟩, ⟨true, false, false⟩] := by
  refine ⟨rfl, rfl, ?_⟩
  decide

/-- C7 amended.  Error isolation within one batch holds only partially:
(1) in the CSV path, `process_csv_file`'s per-row `try/continue` really
isolates failures — every non-raising row is processed no matter which
other rows raise; (2) in `generate_and_save_events`, a failure inside
`generate_and_save_response` is swallowed there and aborts nothing — when
no unit's persist step raises, the whole batch is processed regardless of
response failures; but (3) a persist-step exception is caught only by the
`try` around the whole loop, so `generate_and_save_events` processes
exactly the longest raise-free prefix and the units after the first
raising unit are skipped. -/
theorem batch_isolation_amended :
    (∀ (rows : List GenUnit) (u : GenUnit),
      u ∈ rows → u.persist_raises = false → u ∈ process_csv_rows rows) ∧
    (∀ (units : List GenUnit),
      (∀ u ∈ units, u.persist_raises = false) →
        generate_and_save_events units = units) ∧
    (∀ (units : List GenUnit),
      generate_and_save_events units
        = units.takeWhile (fun u => !u.persist_raises)) ∧
    (∀ (rows : List GenUnit),
      process_csv_rows rows = rows.filter (fun u => !u.persist_raises)) := by
  refine ⟨?_, ?_, ?_, ?_⟩
  · intro rows
    induction rows with
    | nil => intro u h; simp at h
    | cons x xs ih =>
        intro u hu hraise
        rcases List.mem_cons.mp hu with rfl | hmem
        · simp [process_csv_rows, hraise]
        · by_cases hx : x.persist_raises <;>
            simp [process_csv_rows, hx, ih u hmem hraise]
  · intro units h
    induction units with
    | nil => rfl
    | cons x xs ih =>
        have hx : x.persist_raises = false := h x (by simp)
        simp [generate_and_save_events, hx,
          ih (fun u hu => h u (by simp [hu]))]
  · intro units
    induction units with
    | nil => rfl
    | cons x xs ih =>
        by_cases hx : x.persist_raises <;>
          simp [generate_and_save_events, List.takeWhile, hx, ih]
  · intro rows
    induction rows with
    | nil => rfl
    | cons x xs ih =>
        by_cases hx : x.persist_raises <;>
          simp [process_csv_rows, hx, ih]

/-! ## C8 — per-stage durations on the persisted record -/

/-- C8 counterexample.  The serialized response record has NO
`duration_ms_stage1` or `duration_ms_stage2` key — `Response.to_dict`
carries the single key `duration_ms` — refuting "the serialized record
contains both a duration_ms_stage1 and a duration_ms_stage2 field". -/
theorem response_duration_fields_cex :
    "duration_ms_stage1" ∉ (Response.to_dict 1 sampleResponse).map Prod.fst ∧
    "duration_ms_stage2" ∉ (Response.to_dict 1 sampleResponse).map Prod.fst ∧
    "duration_ms" ∈ (Response.to_dict 1 sampleResponse).map Prod.fst := by
  refine ⟨?_, ?_, ?_⟩ <;> decide

/-- C8 amended.  Every serialized response record carries exactly one
duration field, `duration_ms`: the key list of `Response.to_dict` is fixed
and contains `duration_ms` but neither per-stage key; `duration_ms` holds
the row's single duration column — written by Stage 1 — and Stage 2's
update leaves it unchanged, so Stage 2's own execution duration is computed
but never persisted. -/
theorem response_single_duration_amended :
    (∀ (pk : ℚ) (r : ResponseRec),
      (Response.to_dict pk r).map Prod.fst =
        ["id", "log_id", "anomaly_id", "timestamp", "src_ip", "dst_ip",
         "src_port", "dst_port", "anomaly_type1", "re_features", "res_type1",
         "anomaly_type2", "res_type2", "success", "duration_ms"]) ∧
    (∀ (pk : ℚ) (r : ResponseRec),
      (Response.to_dict pk r).lookup "duration_ms" = some (.int r.duration_ms)) ∧
    (∀ (pk : ℚ) (r : ResponseRec),
      "duration_ms_stage1" ∉ (Response.to_dict pk r).map Prod.fst ∧
      "duration_ms_stage2" ∉ (Response.to_dict pk r).map Prod.fst) ∧
    (∀ (r : ResponseRec) (a : String) (rr : ExecResult),
      (updateStage2 r a rr).duration_ms = r.duration_ms) ∧
    (∀ (event : EventRec) (log_id anomaly_type : String) (re_features : FeatureMap)
        (anomaly_id : String) (now : ℚ) (rr : ExecResult),
      (stage1Response event log_id anomaly_type re_features anomaly_id now rr).duration_ms
        = rr.duration_ms) := by
  refine ⟨?_, ?_, ?_, ?_, ?_⟩
  · intro pk r; rfl
  · intro pk r; rfl
  · intro pk r
    constructor <;> · intro h; simp [Response.to_dict] at h
  · intro r a rr; rfl
  · intro event log_id anomaly_type re_features anomaly_id now rr; rfl

/-! ## C10 — the 35-feature payload contract -/

set_option maxHeartbeats 2000000 in
/-- C10.  The feature payload of every generated flow record consists of
exactly the 35 contracted feature names of `Config.IMPORTANT_FEATURES` —
no more, no fewer, no duplicates — in both generators: the dashboard
generator's `generate_realistic_features` dict carries exactly that key
list, and the CSV generator's `_generate_network_row` carries exactly the
five metadata keys followed by that key list.  And every feature value is a
finite number: under draws within the coded `random.uniform`/`randint`
ranges, every value of `generate_realistic_features` lies in
`[0, 10000000]`, and every cell of `_generate_network_row` is either a
metadata string or a number in `[0, 300000000]`. -/
theorem features_payload_contract :
    (∀ (u : ℕ → ℚ), (generate_realistic_features u).map Prod.fst = IMPORTANT_FEATURES) ∧
    IMPORTANT_FEATURES.length = 35 ∧
    IMPORTANT_FEATURES.Nodup ∧
    (∀ (u : ℕ → ℚ), realisticDrawsInRange u →
      ∀ v ∈ (generate_realistic_features u).map Prod.snd, 0 ≤ v ∧ v ≤ 10000000) ∧
    (∀ (ts src_ip dst_ip : String) (dport : ℚ) (w : ℕ → ℚ),
      ((generate_network_row ts src_ip dst_ip dport w).map Prod.fst)
        = ["Timestamp", "Src IP", "Dst IP", "Src Port", "Dst Port"]
            ++ IMPORTANT_FEATURES) ∧
    (∀ (ts src_ip dst_ip : String) (dport : ℚ) (w : ℕ → ℚ),
      dport ∈ ([80, 443, 22, 25, 53, 21, 23, 993, 995] : List ℚ) →
      networkRowDrawsInRange w →
      ∀ v ∈ (generate_network_row ts src_ip dst_ip dport w).map Prod.snd,
        (∃ s, v = CsvValue.str s) ∨
        (∃ q, v = CsvValue.num q ∧ 0 ≤ q ∧ q ≤ 300000000)) := by
  refine ⟨?_, rfl, by decide, ?_, ?_, ?_⟩
  · intro u; rfl
  · intro u h v hv
    obtain ⟨h0, h1, h2, h3, h4, h5, h6, h7, h8, h9, h10, h11, h12, h13, h14, h15, h16,
      h17, h18, h19, h20, h21, h22, h23, h24, h25, h26, h27, h28, h29, h30, h31, h32,
      h33, h34⟩ := h
    simp only [generate_realistic_features, List.map_cons, List.map_nil,
      List.mem_cons, List.not_mem_nil, or_false] at hv
    rcases hv with rfl | rfl | rfl | rfl | rfl | rfl | rfl | rfl | rfl | rfl | rfl |
      rfl | rfl | rfl | rfl | rfl | rfl | rfl | rfl | rfl | rfl | rfl | rfl | rfl |
      rfl | rfl | rfl | rfl | rfl | rfl | rfl | rfl | rfl | rfl | rfl <;>
      exact ⟨by linarith, by linarith⟩
  · intro ts src_ip dst_ip dport w; rfl
  · intro ts src_ip dst_ip dport w hdp h v hv
    obtain ⟨h0, h1, h2, h3, h4, h5, h6, h7, h8, h9, h10, h11, h12, h13, h14, h15, h16,
      h17, h18, h19, h20, h21, h22, h23, h24, h25, h26, h27, h28, h29, h30, h31, h32,
      h33, h34⟩ := h
    have hw1nn : (0 : ℚ) ≤ w 1 := by linarith
    have hbb : w 0 * w 1 ≤ 1500000 := by
      have step : w 0 * w 1 ≤ 1000 * w 1 := mul_le_mul_of_nonneg_right h0.2 hw1nn
      linarith
    have hbb0 : (0 : ℚ) ≤ w 0 * w 1 := mul_nonneg (by linarith) hw1nn
    obtain ⟨hdp1, hdp2⟩ : 0 ≤ dport ∧ dport ≤ 300000000 := by
      fin_cases hdp <;> norm_num
    simp only [generate_network_row, List.map_cons, List.map_nil,
      List.mem_cons, List.not_mem_nil, or_false] at hv
    rcases hv with rfl | rfl | rfl | rfl | rfl | rfl | rfl | rfl | rfl | rfl | rfl |
      rfl | rfl | rfl | rfl | rfl | rfl | rfl | rfl | rfl | rfl | rfl | rfl | rfl |
      rfl | rfl | rfl | rfl | rfl | rfl | rfl | rfl | rfl | rfl | rfl | rfl | rfl |
      rfl | rfl | rfl <;>
      first
        | exact Or.inl ⟨_, rfl⟩
        | exact Or.inr ⟨_, rfl, by linarith, by linarith⟩

end ANBD
